import Mathlib

/-!
Verification of the shopping-checkout service
(`src/modules/shopping/services/checkout.ts`).

JavaScript numbers are embedded as `ℚ` (all prices in the repository are
exact decimal fractions), nullable / optional values as `Option`, and the
`Output<T>` envelope as a structure with two optional fields.  A checkout
session's private mutable state becomes an explicit `CheckoutState` record
threaded through the operations; each method returns its `Output` together
with the successor state.
-/

/-- The error kinds of `src/modules/common/error` (the module itself is not
among the sources; the kinds are taken from their uses in `checkout.ts`). -/
inductive ErrorKind where
  | emptyCartError
  | invalidInputError
  | itemNotFoundError
deriving DecidableEq, Repr

/-- The `Output<T>` result envelope: both fields optional, both may be
absent. -/
structure Output (α : Type) where
  data : Option α := none
  error : Option ErrorKind := none
deriving DecidableEq, Repr

/-- An `Item` record: sku, name, price, optional discount.  `price` is kept
optional because the reducer in `summary` guards it with a truthiness
check. -/
structure Item where
  sku : String
  name : String
  price : Option ℚ := none
  discount : Option ℚ := none
deriving DecidableEq, Repr

/-- A bundle promotion rule: an `Item` extended with the bundle contents and
the qualifying quantity (spec §3, `PromotionRuleItem`). -/
structure PromotionRuleItem extends Item where
  bundleItems : List Item
  minimumQuantity : Nat
deriving DecidableEq, Repr

/-- Modelled from the spec: `MockItemRepository.selectOne` (the repository
module `src/modules/item/repositories/mock` is not among the sources).
Per spec §4.1 it returns the stored item for the sku, and when the sku is
not found it returns an `Output` with no data and no error. -/
def MockItemRepository.selectOne (store : List Item) (sku : String) : Output Item :=
  match store.find? (fun item => item.sku == sku) with
  | some item => { data := some item }
  | none => {}

/-- Modelled from the spec: the per-rule step of `BundlePromotionService`
(the module `src/modules/promotion/services/bundle` is not among the
sources).  Per spec §4.2 steps 1-3: count occurrences of `rule.sku` in the
cart (the length of the filtered cart), compute
`qualifyingGroups = floor(count / rule.minimumQuantity)`, and for each
qualifying group emit one copy of each item of `rule.bundleItems` in order
(group-major). -/
def BundlePromotionService.emitForRule (cart : List Item)
    (rule : PromotionRuleItem) : List Item :=
  (List.range
      ((cart.filter (fun item => item.sku == rule.sku)).length / rule.minimumQuantity)).foldl
    (fun acc _ => acc ++ rule.bundleItems) []

/-- Modelled from the spec: `BundlePromotionService.apply` (the module
`src/modules/promotion/services/bundle` is not among the sources).  Per
spec §4.2 step 4: the concatenation of the per-rule emissions across all
rules, in rule registration order. -/
def BundlePromotionService.apply (rules : List PromotionRuleItem)
    (cart : List Item) : List Item :=
  rules.foldl (fun acc rule => acc ++ BundlePromotionService.emitForRule cart rule) []

/-- The state owned by `MainCheckoutService`: the cart (`#items`), the
registered promotion services (each a `PromotionService.apply` function)
and the injected item repository (`selectOne` as a function). -/
structure CheckoutState where
  items : List Item
  promotionServices : List (List Item → List Item)
  itemRepository : String → Output Item

namespace MainCheckoutService

/-- `MainCheckoutService.clear` (checkout.ts lines 28-41): reset the cart to
the empty list and report `data = true`.  The `catch` branch is unreachable
in the model (reassigning a field cannot throw). -/
def clear (st : CheckoutState) : Output Bool × CheckoutState :=
  ({ data := some true }, { st with items := [] })

/-- `MainCheckoutService.scan` (checkout.ts lines 43-70).  The sku argument
is `Option String`: `none` stands for JavaScript `null`/`undefined`.  The
guard `if (!itemSKU)` is falsy exactly on `none` and the empty string.
`isEmpty(selectItemOutput.error)` is absence of the error, and
`isEmpty(selectItemOutput?.data)` absence of the item (an `Item` object has
enumerable fields, so lodash `isEmpty` on a present item is false). -/
def scan (st : CheckoutState) (itemSKU : Option String) : Output Bool × CheckoutState :=
  match itemSKU with
  | none => ({ data := some false, error := some .invalidInputError }, st)
  | some sku =>
    if sku = "" then
      ({ data := some false, error := some .invalidInputError }, st)
    else
      let selectItemOutput := st.itemRepository sku
      match selectItemOutput.error with
      | some e => ({ data := some false, error := some e }, st)
      | none =>
        match selectItemOutput.data with
        | none => ({ data := some false, error := some .itemNotFoundError }, st)
        | some item => ({ data := some true }, { st with items := st.items ++ [item] })

/-- The promotion loop of `summary` (checkout.ts lines 81-85): for each
registered promotion service in order, push its `apply` of the current cart
onto the cart before the next service runs. -/
def applyPromotions : List (List Item → List Item) → List Item → List Item
  | [], items => items
  | svc :: rest, items => applyPromotions rest (items ++ svc items)

/-- The price reducer of `summary` (checkout.ts lines 97-107): add the price
when truthy, subtract the discount when truthy.  Truthiness of a JavaScript
number is being nonzero; an absent field is falsy. -/
def itemModifier (item : Item) : ℚ :=
  (match item.price with
   | some p => if p ≠ 0 then p else 0
   | none => 0)
  - (match item.discount with
     | some d => if d ≠ 0 then d else 0
     | none => 0)

/-- Number of decimal places needed to write `q` exactly, when at most 64
suffice (the smallest `k` with `q * 10^k` an integer). -/
def decimalPlaces (q : ℚ) : Option Nat :=
  (List.range 65).find? (fun k => (q * (10 : ℚ) ^ k).den == 1)

/-- Left-pad a string with zeros to length `k`. -/
def padZeros (s : String) (k : Nat) : String :=
  if s.length ≥ k then s else String.mk (List.replicate (k - s.length) '0') ++ s

/-- Rendering of a JavaScript number by string interpolation: the shortest
exact decimal form (JavaScript prints every finite double as its shortest
round-tripping decimal; on the exact decimal fractions arising here that is
the minimal exact form, with no trailing zeros and no decimal point for
integers). -/
def renderNum (q : ℚ) : String :=
  match decimalPlaces q with
  | some k =>
    let v : ℤ := (q * (10 : ℚ) ^ k).num
    let sign := if v < 0 then "-" else ""
    let a := v.natAbs
    if k = 0 then sign ++ toString a
    else sign ++ toString (a / 10 ^ k) ++ "." ++ padZeros (toString (a % 10 ^ k)) k
  | none => toString q

/-- `MainCheckoutService.summary` (checkout.ts lines 72-118): fail with
`EmptyCartError` on an empty cart; otherwise push every promotion service's
output onto the cart, then join the skus and fold the price reducer over
the (mutated) cart and return the two report lines.  The
`!isEmpty(this.#promotionServices)` guard is redundant (a loop over an
empty list does nothing) and is absorbed by `applyPromotions`. -/
def summary (st : CheckoutState) : Output String × CheckoutState :=
  if st.items = [] then
    ({ error := some .emptyCartError }, st)
  else
    let items := applyPromotions st.promotionServices st.items
    let itemSKUs := String.intercalate ", " (items.map Item.sku)
    let totalPrice := items.foldl (fun acc item => acc + itemModifier item) 0
    ({ data := some ("SKUs Scanned: " ++ itemSKUs ++ "\n" ++
        "Total expected: $" ++ renderNum totalPrice) },
     { st with items := items })

end MainCheckoutService

/-! ## Demo fixtures (mirroring `checkout.test.ts`) -/

/-- Test item "t01" (checkout.test.ts lines 136-140). -/
def validItemT01 : Item := { sku := "t01", name := "valid-name", price := some 1.99 }

/-- Test item "t02" (checkout.test.ts lines 141-145). -/
def validItemT02 : Item := { sku := "t02", name := "valid-name", price := some 2 }

/-- Test item "p01" (checkout.test.ts lines 13-17). -/
def promotionRuleItem1 : Item := { sku := "p01", name := "valid-name-p1", price := some 1 }

/-- Test item "p02" (checkout.test.ts lines 18-22). -/
def promotionRuleItem2 : Item := { sku := "p02", name := "valid-name-p2", price := some 0.5 }

/-- The free copy of "p02" granted by the bundle (checkout.test.ts lines 30-34). -/
def promotionRuleItem2Free : Item := { promotionRuleItem2 with price := some 0 }

/-- The bundle rule of the tests: two "p01" grant one free "p02"
(checkout.test.ts lines 26-38). -/
def demoRules : List PromotionRuleItem :=
  [{ promotionRuleItem1 with bundleItems := [promotionRuleItem2Free], minimumQuantity := 2 }]

/-- The repository contents used in the demo scenarios. -/
def demoStore : List Item := [validItemT01, validItemT02, promotionRuleItem1, promotionRuleItem2]

/-- A fresh checkout session configured as in `checkout.test.ts` lines 24-42:
empty cart, the single bundle promotion service, the mock repository. -/
def demoState0 : CheckoutState :=
  { items := [],
    promotionServices := [BundlePromotionService.apply demoRules],
    itemRepository := MockItemRepository.selectOne demoStore }

/-- The session after scanning "t01", "t02", "t01". -/
def demoStateT : CheckoutState :=
  (MainCheckoutService.scan
    (MainCheckoutService.scan
      (MainCheckoutService.scan demoState0 (some "t01")).2 (some "t02")).2 (some "t01")).2

/-- The session after scanning "p01" three times and "p02" once. -/
def demoStateP : CheckoutState :=
  (MainCheckoutService.scan
    (MainCheckoutService.scan
      (MainCheckoutService.scan
        (MainCheckoutService.scan demoState0 (some "p01")).2 (some "p01")).2
      (some "p01")).2 (some "p02")).2

/-! ## Helper lemmas -/

namespace MainCheckoutService

theorem applyPromotions_take_succ (svcs : List (List Item → List Item))
    (c : List Item) (i : Nat) (h : i < svcs.length) :
    applyPromotions (svcs.take (i + 1)) c =
      applyPromotions (svcs.take i) c ++
        svcs[i] (applyPromotions (svcs.take i) c) := by
  induction i generalizing svcs c with
  | zero =>
    cases svcs with
    | nil => simp at h
    | cons s rest => simp [applyPromotions]
  | succ i ih =>
    cases svcs with
    | nil => simp at h
    | cons s rest =>
      simp only [List.take_succ_cons, applyPromotions, List.getElem_cons_succ]
      exact ih rest (c ++ s c) (by simpa using h)

theorem exists_append_applyPromotions (svcs : List (List Item → List Item)) :
    ∀ c : List Item, ∃ t, c ++ t = applyPromotions svcs c := by
  induction svcs with
  | nil => exact fun c => ⟨[], by simp [applyPromotions]⟩
  | cons s rest ih =>
    intro c
    obtain ⟨t, ht⟩ := ih (c ++ s c)
    exact ⟨s c ++ t, by rw [← List.append_assoc, ht]; rfl⟩

theorem itemModifier_eq (item : Item) :
    itemModifier item = item.price.getD 0 - item.discount.getD 0 := by
  unfold itemModifier
  cases item.price with
  | none =>
    cases item.discount with
    | none => simp
    | some d => by_cases hd : d = 0 <;> simp [hd]
  | some p =>
    cases item.discount with
    | none => by_cases hp : p = 0 <;> simp [hp]
    | some d => by_cases hp : p = 0 <;> by_cases hd : d = 0 <;> simp [hp, hd]

theorem foldl_add_eq_sum (f : Item → ℚ) (init : ℚ) :
    ∀ items : List Item,
      items.foldl (fun acc item => acc + f item) init = init + (items.map f).sum := by
  intro items
  induction items generalizing init with
  | nil => simp
  | cons item rest ih => simp [ih, add_assoc]

theorem map_itemModifier_eq (items : List Item) :
    items.map itemModifier =
      items.map (fun item => item.price.getD 0 - item.discount.getD 0) := by
  induction items with
  | nil => rfl
  | cons item rest ih => simp [ih, itemModifier_eq]

theorem totalPrice_eq_sum (items : List Item) :
    items.foldl (fun acc item => acc + itemModifier item) 0 =
      (items.map (fun item => item.price.getD 0 - item.discount.getD 0)).sum := by
  rw [foldl_add_eq_sum, zero_add, map_itemModifier_eq]

theorem summary_eq_of_ne (st : CheckoutState) (h : ¬ st.items = []) :
    summary st =
      (⟨some ("SKUs Scanned: " ++ String.intercalate ", "
            ((applyPromotions st.promotionServices st.items).map Item.sku)
          ++ "\n" ++ "Total expected: $" ++ renderNum
            ((applyPromotions st.promotionServices st.items).foldl
              (fun acc item => acc + itemModifier item) 0)),
        none⟩,
       { st with items := applyPromotions st.promotionServices st.items }) := by
  unfold summary
  rw [if_neg h]

theorem scan_state_or (st : CheckoutState) (sku : Option String) :
    ((scan st sku).1.data = some false ∧ (scan st sku).2 = st) ∨
      (scan st sku).1.data = some true := by
  cases sku with
  | none => exact Or.inl ⟨rfl, rfl⟩
  | some s =>
    by_cases hs : s = ""
    · subst hs; exact Or.inl ⟨rfl, rfl⟩
    · simp only [scan, if_neg hs]
      cases (st.itemRepository s).error with
      | some e => exact Or.inl ⟨rfl, rfl⟩
      | none =>
        cases (st.itemRepository s).data with
        | none => exact Or.inl ⟨rfl, rfl⟩
        | some item => exact Or.inr rfl

end MainCheckoutService

theorem foldl_append_eq_flatten {α β : Type} (g : β → List α) (init : List α)
    (l : List β) :
    l.foldl (fun acc b => acc ++ g b) init = init ++ (l.map g).flatten := by
  induction l generalizing init with
  | nil => simp
  | cons b rest ih => simp [ih]

theorem range_foldl_const_append {α : Type} (b : List α) (n : Nat) :
    (List.range n).foldl (fun acc _ => acc ++ b) [] = (List.replicate n b).flatten := by
  induction n with
  | zero => rfl
  | succ n ih =>
    rw [List.range_succ, List.foldl_append, ih, List.replicate_succ', List.flatten_append]
    simp

theorem BundlePromotionService.emitForRule_eq (cart : List Item)
    (rule : PromotionRuleItem) :
    BundlePromotionService.emitForRule cart rule =
      (List.replicate
        ((cart.map Item.sku).count rule.sku / rule.minimumQuantity)
        rule.bundleItems).flatten := by
  unfold BundlePromotionService.emitForRule
  rw [range_foldl_const_append]
  congr 2
  rw [List.count_eq_countP, List.countP_map, List.countP_eq_length_filter]
  rfl

theorem BundlePromotionService.apply_eq (rules : List PromotionRuleItem)
    (cart : List Item) :
    BundlePromotionService.apply rules cart =
      (rules.map (fun rule =>
        (List.replicate
          ((cart.map Item.sku).count rule.sku / rule.minimumQuantity)
          rule.bundleItems).flatten)).flatten := by
  unfold BundlePromotionService.apply
  rw [foldl_append_eq_flatten]
  simp only [List.nil_append]
  congr 1
  exact List.map_congr_left (fun rule _ => BundlePromotionService.emitForRule_eq cart rule)

/-- A session state with two promotion strategies, used to exhibit sequencing. -/
def demoTwoSvcState : CheckoutState :=
  { items := [promotionRuleItem1],
    promotionServices := [fun _ => [validItemT01], fun cart => cart],
    itemRepository := MockItemRepository.selectOne demoStore }

/-- Claim C1: the bundle promotion strategy emits, per rule in registration
order, `floor(count of rule.sku in cart / rule.minimumQuantity)` qualifying
groups, and for each group one copy of each bundle item in order,
group-major; in the test scenario, scanning "p01" three times and "p02"
once and then summarizing appends exactly one free "p02", yielding sku list
`p01, p01, p01, p02, p02` and total `3.5`. -/
theorem bundle_apply_matches_rule_semantics :
    (∀ (rules : List PromotionRuleItem) (cart : List Item),
      BundlePromotionService.apply rules cart =
        (rules.map (fun rule =>
          (List.replicate
            ((cart.map Item.sku).count rule.sku / rule.minimumQuantity)
            rule.bundleItems).flatten)).flatten)
    ∧ (MainCheckoutService.summary demoStateP).2.items =
        demoStateP.items ++ [promotionRuleItem2Free]
    ∧ (MainCheckoutService.summary demoStateP).2.items.map Item.sku =
        ["p01", "p01", "p01", "p02", "p02"]
    ∧ (MainCheckoutService.summary demoStateP).1 =
        ⟨some "SKUs Scanned: p01, p01, p01, p02, p02\nTotal expected: $3.5", none⟩ :=
  ⟨BundlePromotionService.apply_eq, by with_unfolding_all decide, by with_unfolding_all decide, by with_unfolding_all decide⟩

/-- Claim C2: for every non-empty cart, summary computes the total as the
sum over the promotion-extended cart of price (default 0) minus discount
(default 0) and returns the two report lines joined by a newline;
concretely, scanning t01 (1.99), t02 (2.00), t01 and summarizing yields
exactly the expected string with total `$5.98`. -/
theorem summary_total_and_report (st : CheckoutState) (h : st.items ≠ []) :
    (MainCheckoutService.summary st).1 =
      ⟨some ("SKUs Scanned: " ++ String.intercalate ", "
            ((MainCheckoutService.applyPromotions st.promotionServices st.items).map Item.sku)
          ++ "\n" ++ "Total expected: $" ++ MainCheckoutService.renderNum
            (((MainCheckoutService.applyPromotions st.promotionServices st.items).map
              (fun item => item.price.getD 0 - item.discount.getD 0)).sum)),
        none⟩
    ∧ (MainCheckoutService.summary demoStateT).1 =
        ⟨some "SKUs Scanned: t01, t02, t01\nTotal expected: $5.98", none⟩ := by
  constructor
  · rw [MainCheckoutService.summary_eq_of_ne st h,
      ← MainCheckoutService.totalPrice_eq_sum]
  · with_unfolding_all decide

/-- Witness for C2 at the t01/t02/t01 session. -/
theorem summary_total_and_report_witness :
    demoStateT.items ≠ [] ∧
    ((MainCheckoutService.summary demoStateT).1 =
      ⟨some ("SKUs Scanned: " ++ String.intercalate ", "
            ((MainCheckoutService.applyPromotions demoStateT.promotionServices
              demoStateT.items).map Item.sku)
          ++ "\n" ++ "Total expected: $" ++ MainCheckoutService.renderNum
            (((MainCheckoutService.applyPromotions demoStateT.promotionServices
              demoStateT.items).map
              (fun item => item.price.getD 0 - item.discount.getD 0)).sum)),
        none⟩
    ∧ (MainCheckoutService.summary demoStateT).1 =
        ⟨some "SKUs Scanned: t01, t02, t01\nTotal expected: $5.98", none⟩) :=
  ⟨by with_unfolding_all decide, summary_total_and_report demoStateT (by with_unfolding_all decide)⟩

/-- Counterexample to claim C3 as stated: at the bundle scenario session,
summary persists the promotion-appended free item into the cart, and a
second summary call produces a different report. -/
theorem summary_persistence_counterexample :
    (MainCheckoutService.summary demoStateP).2.items ≠ demoStateP.items ∧
    (MainCheckoutService.summary (MainCheckoutService.summary demoStateP).2).1 ≠
      (MainCheckoutService.summary demoStateP).1 := by
  constructor <;> with_unfolding_all decide

/-- Claim C3 (amended): promotion application during summary IS persisted
back into the session's cart — after the call the cart equals the
promotion-extended cart (the other state components are unchanged), so a
repeated summary call re-applies promotions to the already-extended cart. -/
theorem summary_persists_promotion_items (st : CheckoutState) (h : st.items ≠ []) :
    (MainCheckoutService.summary st).2.items =
      MainCheckoutService.applyPromotions st.promotionServices st.items ∧
    (MainCheckoutService.summary st).2.promotionServices = st.promotionServices ∧
    (MainCheckoutService.summary st).2.itemRepository = st.itemRepository := by
  rw [MainCheckoutService.summary_eq_of_ne st h]
  exact ⟨rfl, rfl, rfl⟩

/-- Witness for the amended C3 at the bundle scenario session. -/
theorem summary_persists_promotion_items_witness :
    demoStateP.items ≠ [] ∧
    ((MainCheckoutService.summary demoStateP).2.items =
      MainCheckoutService.applyPromotions demoStateP.promotionServices demoStateP.items ∧
    (MainCheckoutService.summary demoStateP).2.promotionServices =
      demoStateP.promotionServices ∧
    (MainCheckoutService.summary demoStateP).2.itemRepository =
      demoStateP.itemRepository) :=
  ⟨by with_unfolding_all decide, summary_persists_promotion_items demoStateP
    (by with_unfolding_all decide)⟩

/-- Claim C4: within one summary call, strategies run in registration order
and each strategy's output is appended to the cart before the next strategy
runs: the cart after the first `i + 1` strategies is the cart after the
first `i` strategies extended by what strategy `i` returns on exactly that
cart, and the final cart of summary is the full left-to-right
accumulation. -/
theorem strategies_see_earlier_outputs (st : CheckoutState) (h : st.items ≠ []) :
    (MainCheckoutService.summary st).2.items =
      MainCheckoutService.applyPromotions st.promotionServices st.items ∧
    ∀ i (hi : i < st.promotionServices.length),
      MainCheckoutService.applyPromotions (st.promotionServices.take (i + 1)) st.items =
        MainCheckoutService.applyPromotions (st.promotionServices.take i) st.items ++
          st.promotionServices[i]
            (MainCheckoutService.applyPromotions (st.promotionServices.take i) st.items) := by
  refine ⟨?_, ?_⟩
  · rw [MainCheckoutService.summary_eq_of_ne st h]
  · intro i hi
    exact MainCheckoutService.applyPromotions_take_succ st.promotionServices st.items i hi

/-- Witness for C4 at a session with two registered strategies. -/
theorem strategies_see_earlier_outputs_witness :
    demoTwoSvcState.items ≠ [] ∧
    ((MainCheckoutService.summary demoTwoSvcState).2.items =
      MainCheckoutService.applyPromotions demoTwoSvcState.promotionServices
        demoTwoSvcState.items ∧
    ∀ i (hi : i < demoTwoSvcState.promotionServices.length),
      MainCheckoutService.applyPromotions
          (demoTwoSvcState.promotionServices.take (i + 1)) demoTwoSvcState.items =
        MainCheckoutService.applyPromotions
          (demoTwoSvcState.promotionServices.take i) demoTwoSvcState.items ++
          demoTwoSvcState.promotionServices[i]
            (MainCheckoutService.applyPromotions
              (demoTwoSvcState.promotionServices.take i) demoTwoSvcState.items)) :=
  ⟨by with_unfolding_all decide, strategies_see_earlier_outputs demoTwoSvcState
    (by with_unfolding_all decide)⟩

/-- Claim C5: summary on an empty cart returns the EmptyCartError output
with no data, leaves the session unchanged (still Empty), and does so for
every list of registered promotion strategies — the emptiness check runs
before any promotion does, so promotions can never populate an empty
cart. -/
theorem summary_empty_cart_error (st : CheckoutState) (h : st.items = []) :
    MainCheckoutService.summary st = (⟨none, some .emptyCartError⟩, st) ∧
    (MainCheckoutService.summary st).2.items = [] ∧
    ∀ promos : List (List Item → List Item),
      MainCheckoutService.summary { st with promotionServices := promos } =
        (⟨none, some .emptyCartError⟩, { st with promotionServices := promos }) := by
  refine ⟨?_, ?_, ?_⟩
  · unfold MainCheckoutService.summary
    rw [if_pos h]
  · unfold MainCheckoutService.summary
    rw [if_pos h]
    exact h
  · intro promos
    unfold MainCheckoutService.summary
    rw [if_pos h]

/-- Witness for C5 at the freshly constructed session. -/
theorem summary_empty_cart_error_witness :
    demoState0.items = [] ∧
    (MainCheckoutService.summary demoState0 = (⟨none, some .emptyCartError⟩, demoState0) ∧
    (MainCheckoutService.summary demoState0).2.items = [] ∧
    ∀ promos : List (List Item → List Item),
      MainCheckoutService.summary { demoState0 with promotionServices := promos } =
        (⟨none, some .emptyCartError⟩, { demoState0 with promotionServices := promos })) :=
  ⟨rfl, summary_empty_cart_error demoState0 rfl⟩

/-- Claim C6: scan with an absent sku (null/undefined, modelled `none`) or
the empty string returns data=false with InvalidInputError, leaves the
session unchanged, and produces that output whatever repository is
injected — the repository is never consulted. -/
theorem scan_invalid_input_error (st : CheckoutState) (sku : Option String)
    (h : sku = none ∨ sku = some "") :
    (MainCheckoutService.scan st sku).1 = ⟨some false, some .invalidInputError⟩ ∧
    (MainCheckoutService.scan st sku).2 = st ∧
    ∀ repo : String → Output Item,
      (MainCheckoutService.scan { st with itemRepository := repo } sku).1 =
        ⟨some false, some .invalidInputError⟩ := by
  rcases h with h | h <;> subst h
  · exact ⟨rfl, rfl, fun repo => rfl⟩
  · exact ⟨rfl, rfl, fun repo => rfl⟩

/-- Witness for C6 at the empty-string sku. -/
theorem scan_invalid_input_error_witness :
    (some "" = none ∨ some "" = some "") ∧
    ((MainCheckoutService.scan demoState0 (some "")).1 =
      ⟨some false, some .invalidInputError⟩ ∧
    (MainCheckoutService.scan demoState0 (some "")).2 = demoState0 ∧
    ∀ repo : String → Output Item,
      (MainCheckoutService.scan { demoState0 with itemRepository := repo } (some "")).1 =
        ⟨some false, some .invalidInputError⟩) :=
  ⟨Or.inr rfl, scan_invalid_input_error demoState0 (some "") (Or.inr rfl)⟩

/-- Claim C7: for a non-empty sku, when the repository reports neither an
error nor data (absence of data is how it signals not-found — in
particular the modelled mock repository never sets an error), scan turns
that absence into ItemNotFoundError with data=false and an unchanged
session; and when the repository reports an error, scan propagates exactly
that error with data=false. -/
theorem scan_item_not_found_error (st : CheckoutState) (sku : String) (h : sku ≠ "") :
    ((st.itemRepository sku).error = none → (st.itemRepository sku).data = none →
      MainCheckoutService.scan st (some sku) =
        (⟨some false, some .itemNotFoundError⟩, st)) ∧
    (∀ e, (st.itemRepository sku).error = some e →
      MainCheckoutService.scan st (some sku) = (⟨some false, some e⟩, st)) ∧
    ∀ (store : List Item) (s : String),
      (MockItemRepository.selectOne store s).error = none := by
  refine ⟨?_, ?_, ?_⟩
  · intro he hd
    simp only [MainCheckoutService.scan, if_neg h, he, hd]
  · intro e he
    simp only [MainCheckoutService.scan, if_neg h, he]
  · intro store s
    unfold MockItemRepository.selectOne
    cases store.find? (fun item => item.sku == s) <;> rfl

/-- Witness for C7 at an unknown sku of the demo repository. -/
theorem scan_item_not_found_error_witness :
    "t03" ≠ "" ∧
    (((demoState0.itemRepository "t03").error = none →
        (demoState0.itemRepository "t03").data = none →
      MainCheckoutService.scan demoState0 (some "t03") =
        (⟨some false, some .itemNotFoundError⟩, demoState0)) ∧
    (∀ e, (demoState0.itemRepository "t03").error = some e →
      MainCheckoutService.scan demoState0 (some "t03") =
        (⟨some false, some e⟩, demoState0)) ∧
    ∀ (store : List Item) (s : String),
      (MockItemRepository.selectOne store s).error = none) :=
  ⟨by with_unfolding_all decide, scan_item_not_found_error demoState0 "t03"
    (by with_unfolding_all decide)⟩

/-- Claim C8: summary on a non-empty cart only grows the cart: the prior
cart is a prefix of the new one (every prior item keeps its position, none
is removed or reordered) and the session stays Populated. -/
theorem summary_only_grows_cart (st : CheckoutState) (h : st.items ≠ []) :
    st.items <+: (MainCheckoutService.summary st).2.items ∧
    (MainCheckoutService.summary st).2.items ≠ [] := by
  obtain ⟨t, ht⟩ :=
    MainCheckoutService.exists_append_applyPromotions st.promotionServices st.items
  constructor
  · rw [MainCheckoutService.summary_eq_of_ne st h]
    exact ⟨t, ht⟩
  · rw [MainCheckoutService.summary_eq_of_ne st h]
    intro hnil
    rw [← ht] at hnil
    rcases List.append_eq_nil.mp hnil with ⟨h1, _⟩
    exact h h1

/-- Witness for C8 at the t01/t02/t01 session. -/
theorem summary_only_grows_cart_witness :
    demoStateT.items ≠ [] ∧
    (demoStateT.items <+: (MainCheckoutService.summary demoStateT).2.items ∧
    (MainCheckoutService.summary demoStateT).2.items ≠ []) :=
  ⟨by with_unfolding_all decide, summary_only_grows_cart demoStateT
    (by with_unfolding_all decide)⟩

/-- Claim C9: clear resets the cart to empty and returns data=true, and is
idempotent: a second clear returns the very same output and state, so it
never fails and the cart is empty after either call. -/
theorem clear_resets_and_idempotent (st : CheckoutState) :
    (MainCheckoutService.clear st).1 = ⟨some true, none⟩ ∧
    (MainCheckoutService.clear st).2.items = [] ∧
    MainCheckoutService.clear (MainCheckoutService.clear st).2 =
      MainCheckoutService.clear st :=
  ⟨rfl, rfl, rfl⟩

/-- Claim C10: scan is atomic on error — whenever it reports data=false
(invalid input, repository error, or item not found), the session state,
and in particular the cart, is exactly what it was before the call. -/
theorem scan_atomic_on_error (st : CheckoutState) (sku : Option String)
    (h : (MainCheckoutService.scan st sku).1.data = some false) :
    (MainCheckoutService.scan st sku).2 = st := by
  rcases MainCheckoutService.scan_state_or st sku with ⟨_, hst⟩ | hd
  · exact hst
  · rw [hd] at h
    simp at h

/-- Witness for C10 at an unknown sku. -/
theorem scan_atomic_on_error_witness :
    (MainCheckoutService.scan demoState0 (some "zzz")).1.data = some false ∧
    (MainCheckoutService.scan demoState0 (some "zzz")).2 = demoState0 :=
  ⟨by with_unfolding_all decide, scan_atomic_on_error demoState0 (some "zzz")
    (by with_unfolding_all decide)⟩
